import Mathlib

/-!
Verification development for the Fulfil → ShipHero product mediator.

The definitions below are a shallow embedding of the Python sources:
  backend/mediator/services/fulfil_service.py   (pagination, product extraction)
  backend/mediator/services/shiphero_service.py (introspection, payload filtering,
                                                 mutation-shape detection, update_product)
  backend/mediator/utils/utils.py               (sha256_json, unit converters)
  backend/mediator/controllers/sync_logic.py    (SyncService.run_delta_sync)

Python JSON-ish dynamic values are modelled by the inductive `JValue`,
Python `None` by `Option`, raised exceptions by `Except`, machine floats by
exact rationals (the float-specific rounding never matters to the proved
properties), and ISO-8601 timestamps by `Nat` (seconds since epoch); network
collaborators (the Fulfil and ShipHero HTTP endpoints) are explicit function
parameters.
-/

namespace Mediator

/-- A JSON-like dynamic value, as manipulated by the Python sources.
Python `dict`s are association lists (unique keys in practice). -/
inductive JValue where
  | null
  | bool (b : Bool)
  | int (n : Int)
  | str (s : String)
  | arr (items : List JValue)
  | obj (fields : List (String × JValue))

/-- Python truthiness of a JSON-like value (`if x:`). -/
def JValue.truthy : JValue → Bool
  | .null => false
  | .bool b => b
  | .int n => n != 0
  | .str s => s != ""
  | .arr l => !l.isEmpty
  | .obj l => !l.isEmpty

/-- `d.get(k)` on a Python dict: first binding of the key (keys are unique). -/
def jget (fields : List (String × JValue)) (k : String) : Option JValue :=
  (fields.find? (fun kv => kv.1 = k)).map (·.2)

/-- Python `isinstance(x, int)` plus the numeric value: `bool` is a subtype of
`int` in Python, so `True`/`False` count as `1`/`0`. -/
def pyInt? : Option JValue → Option Int
  | some (.int n) => some n
  | some (.bool b) => some (if b then 1 else 0)
  | _ => none

/-- The key-probing loop of `FulfilService._extract_products`: first key among
`ks` whose value is a list. -/
def firstListKey (fields : List (String × JValue)) : List String → Option (List JValue)
  | [] => none
  | k :: ks =>
    match jget fields k with
    | some (.arr l) => some l
    | _ => firstListKey fields ks

/-- `FulfilService._extract_products`: extract the product list from the
possible response shapes. -/
def extract_products (data : JValue) : List JValue :=
  match data with
  | .arr l => l
  | .obj fields => (firstListKey fields ["data", "products", "results", "items"]).getD []
  | _ => []

/-- `FulfilService._has_more_pages`: best-effort detection of additional pages. -/
def has_more_pages (data : JValue) (products_count : Nat) (per_page : Nat) : Bool :=
  match data with
  | .obj fields =>
    if (jget fields "next").elim false JValue.truthy then true
    else
      -- `data.get("has_more") is True`
      match jget fields "has_more" with
      | some (.bool true) => true
      | _ =>
        match pyInt? (jget fields "page"), pyInt? (jget fields "total_pages") with
        | some page, some total_pages => page < total_pages
        | _, _ => per_page ≤ products_count
  | _ => per_page ≤ products_count

/-- The paging loop of `FulfilService.get_all_products`, with explicit fuel for
the `while True` loop and an instrumented trace of the page numbers fetched.
`none` means the fuel ran out before the loop exited. -/
def fetch_pages (server : Nat → JValue) (per_page : Nat) :
    Nat → Nat → List JValue → List Nat → Option (List JValue × List Nat)
  | 0, _, _, _ => none
  | fuel + 1, page, all_products, fetched =>
    let data := server page
    let products := extract_products data
    let fetched := fetched ++ [page]
    if products.isEmpty then some (all_products, fetched)
    else
      let all_products := all_products ++ products
      if !has_more_pages data products.length per_page then some (all_products, fetched)
      else fetch_pages server per_page fuel (page + 1) all_products fetched

/-- `FulfilService.get_all_products`: starts at page 1 with page size 50. -/
def get_all_products (server : Nat → JValue) (fuel : Nat) :
    Option (List JValue × List Nat) :=
  fetch_pages server 50 fuel 1 [] []

/-- The loop's stopping condition at one page: an empty extracted product list,
or a page failing the has-more test. -/
def page_stops (server : Nat → JValue) (per_page : Nat) (page : Nat) : Prop :=
  (extract_products (server page)).isEmpty = true ∨
    has_more_pages (server page) (extract_products (server page)).length per_page = false

/-! ### ShipHero schema introspection (`shiphero_service.py`) -/

/-- A GraphQL type reference as returned by introspection: `kind`, `name` and a
nested `ofType`. `empty` is the `{}` the Python code falls back to when a type
object or its `ofType` is absent. -/
inductive TypeRef where
  | empty
  | mk (kind : Option String) (name : Option String) (ofType : TypeRef)
  deriving DecidableEq

/-- `ShipHeroService._deep_type_name`: walk `ofType` links until a truthy
`name` is found; an exhausted (falsy) type object yields `""`. -/
def deep_type_name : TypeRef → String
  | .empty => ""
  | .mk _ name ofType =>
    match name with
    | some n => if n = "" then deep_type_name ofType else n
    | none => deep_type_name ofType

/-- One entry of an input type's `inputFields` introspection list. -/
structure InputField where
  name : Option String
  type : TypeRef
  deriving DecidableEq

/-- The introspection collaborator behind `_get_input_fields`: for a type name,
either the parsed `inputFields` list, or an error when the request raises or
the response lacks the expected structure. -/
abbrev Introspect := String → Except String (List InputField)

/-- `ShipHeroService._get_input_fields`: any failure of the introspection
request is caught and turned into the empty field list. -/
def get_input_fields (introspect : Introspect) (type_name : String) : List InputField :=
  match introspect type_name with
  | .ok fields => fields
  | .error _ => []

/-- `\x7bf.get('name'): f for f in input_fields\x7d.get(key)`: the last field
with the given name wins, as in a Python dict comprehension. -/
def dict_get_last (input_fields : List InputField) (key : String) : Option InputField :=
  input_fields.reverse.find? (fun f => f.name = some key)

mutual

/-- `ShipHeroService._filter_input_payload`: keep only payload keys known to
the input type, recursing into nested objects and lists with the nested input
type name; primitives pass through. Because `_get_input_fields` never raises
(it catches every exception itself, returning `[]`), the enclosing
`try/except` of the Python function is unreachable for well-formed payloads
and does not appear here. -/
def filter_input_payload (introspect : Introspect) (input_type_name : String) :
    JValue → JValue
  | .obj fields =>
    .obj (filter_payload_fields introspect (get_input_fields introspect input_type_name) fields)
  | .arr items => .arr (filter_payload_items introspect input_type_name items)
  | v => v

/-- The list branch of `_filter_input_payload`: elements are filtered against
the same type name. -/
def filter_payload_items (introspect : Introspect) (input_type_name : String) :
    List JValue → List JValue
  | [] => []
  | item :: rest =>
    filter_input_payload introspect input_type_name item ::
      filter_payload_items introspect input_type_name rest

/-- The per-key loop of `_filter_input_payload` over a dict payload. -/
def filter_payload_fields (introspect : Introspect) (input_fields : List InputField) :
    List (String × JValue) → List (String × JValue)
  | [] => []
  | (key, value) :: rest =>
    match dict_get_last input_fields key with
    | none => filter_payload_fields introspect input_fields rest
    | some fdef =>
      match value with
      | .obj fs =>
        (key, filter_input_payload introspect (deep_type_name fdef.type) (.obj fs)) ::
          filter_payload_fields introspect input_fields rest
      | .arr items =>
        (key, filter_input_payload introspect (deep_type_name fdef.type) (.arr items)) ::
          filter_payload_fields introspect input_fields rest
      | v => (key, v) :: filter_payload_fields introspect input_fields rest

end

/-- One argument of an introspected mutation field. -/
structure MutationArg where
  name : Option String
  type : TypeRef
  deriving DecidableEq

/-- Python dict assignment `m[k] = v`: overwrite an existing binding in place,
else append. -/
def dict_insert (m : List (String × String)) (k v : String) : List (String × String) :=
  if m.any (fun kv => kv.1 = k) then m.map (fun kv => if kv.1 = k then (k, v) else kv)
  else m ++ [(k, v)]

/-- Key lookup in the candidate dict. -/
def dict_lookup (m : List (String × String)) (k : String) : Option String :=
  (m.find? (fun kv => kv.1 = k)).map (·.2)

/-- The `id_candidates` dict built by `_detect_product_mutation_shapes` for the
update mutation: arguments whose deep type name is `ID` or `String`, keyed by
argument name (missing names default to `""`). -/
def update_id_candidates (args : List MutationArg) : List (String × String) :=
  args.foldl
    (fun m arg =>
      let tname := deep_type_name arg.type
      if tname = "ID" ∨ tname = "String" then dict_insert m (arg.name.getD "") tname else m)
    []

/-- The `for pref in ['id', 'legacy_id', 'sku', 'product_id']` selection loop. -/
def select_pref : List String → List (String × String) → Option (String × String)
  | [], _ => none
  | pref :: rest, cands =>
    match dict_lookup cands pref with
    | some t => some (pref, t)
    | none => select_pref rest cands

/-- The identifier-argument detection of `_detect_product_mutation_shapes` for
`product_update`: `none` models the `update_id_arg_name` staying `None`. -/
def select_update_id_arg (args : List MutationArg) : Option (String × String) :=
  select_pref ["id", "legacy_id", "sku", "product_id"] (update_id_candidates args)

/-! ### `ShipHeroService.update_product` payload construction -/

/-- The fixed create-only field set stripped unconditionally by
`update_product` before any filtering. -/
def disallowed_on_update : List String :=
  ["kit", "kit_build", "no_air", "customs_value", "not_owned", "dropship"]

/-- Fields of a dict value (the filtered payload is always a dict here). -/
def obj_fields : JValue → List (String × JValue)
  | .obj fields => fields
  | _ => []

/-- The `data` variable finally sent by `ShipHeroService.update_product`:
strip the create-only fields, filter against the detected update input type,
and, in the no-identifier-argument shape, merge a truthy identifier in as
`sku` when the filtered payload lacks one. -/
def update_product_sent_data (introspect : Introspect) (update_id_arg_name : Option String)
    (update_input_type_name : String) (identifier : Option String)
    (product_data : List (String × JValue)) : List (String × JValue) :=
  let base_payload := product_data.filter (fun kv => !disallowed_on_update.contains kv.1)
  match update_id_arg_name with
  | none =>
    let safe_data :=
      obj_fields (filter_input_payload introspect update_input_type_name (.obj base_payload))
    match identifier with
    | some i =>
      if !(safe_data.any (fun kv => kv.1 = "sku")) && i != "" then safe_data ++ [("sku", .str i)]
      else safe_data
    | none => safe_data
  | some _ =>
    obj_fields (filter_input_payload introspect update_input_type_name (.obj base_payload))

/-! ### Content hasher (`utils.py: sha256_json`)

`sha256_json(obj)` is `sha256(json.dumps(obj, sort_keys=True,
separators=(",", ":")).encode("utf-8")).hexdigest()`.  The payloads hashed by
the sync path are flat mappings of field names to scalar values, so the
serializer below is defined on those.  SHA-256 itself is implemented over byte
lists with 32-bit words as `Nat` reduced `% 2^32`. -/

/-- A scalar JSON value as it occurs in a downstream-bound payload.  `num`
carries an exact rational in place of a Python float; its decimal rendering is
abstracted by an exact fraction rendering (deterministic and injective), which
is all the proved properties depend on. -/
inductive JScalar where
  | null
  | bool (b : Bool)
  | int (n : Int)
  | str (s : String)
  | num (q : ℚ)
  deriving DecidableEq

/-- Big-endian 32-bit word mask. -/
def w32 (n : Nat) : Nat := n % 4294967296

/-- Right rotation of a 32-bit word. -/
def rotr (n x : Nat) : Nat := w32 ((x >>> n) ||| (x <<< (32 - n)))

/-- The eight registers of the SHA-256 compression loop. -/
structure ShaRegs where
  a : Nat
  b : Nat
  c : Nat
  d : Nat
  e : Nat
  f : Nat
  g : Nat
  h : Nat

/-- The running eight-word hash value. -/
structure ShaHash where
  h0 : Nat
  h1 : Nat
  h2 : Nat
  h3 : Nat
  h4 : Nat
  h5 : Nat
  h6 : Nat
  h7 : Nat

/-- SHA-256 initial hash value (FIPS 180-4, decimal). -/
def shaInit : ShaHash :=
  ⟨1779033703, 3144134277, 1013904242, 2773480762,
   1359893119, 2600822924, 528734635, 1541459225⟩

/-- SHA-256 round constants (FIPS 180-4, decimal). -/
def shaK : List Nat :=
  [1116352408, 1899447441, 3049323471, 3921009573, 961987163, 1508970993, 2453635748,
   2870763221, 3624381080, 310598401, 607225278, 1426881987, 1925078388, 2162078206,
   2614888103, 3248222580, 3835390401, 4022224774, 264347078, 604807628, 770255983,
   1249150122, 1555081692, 1996064986, 2554220882, 2821834349, 2952996808, 3210313671,
   3336571891, 3584528711, 113926993, 338241895, 666307205, 773529912, 1294757372,
   1396182291, 1695183700, 1986661051, 2177026350, 2456956037, 2730485921, 2820302411,
   3259730800, 3345764771, 3516065817, 3600352804, 4094571909, 275423344, 430227734,
   506948616, 659060556, 883997877, 958139571, 1322822218, 1537002063, 1747873779,
   1955562222, 2024104815, 2227730452, 2361852424, 2428436474, 2756734187, 3204031479,
   3329325298]

/-- One SHA-256 compression round, consuming one `(k, w)` pair. -/
def shaRound (st : ShaRegs) (kw : Nat × Nat) : ShaRegs :=
  let s1 := rotr 6 st.e ^^^ rotr 11 st.e ^^^ rotr 25 st.e
  let ch := (st.e &&& st.f) ^^^ ((st.e ^^^ 4294967295) &&& st.g)
  let temp1 := w32 (st.h + s1 + ch + kw.1 + kw.2)
  let s0 := rotr 2 st.a ^^^ rotr 13 st.a ^^^ rotr 22 st.a
  let maj := (st.a &&& st.b) ^^^ (st.a &&& st.c) ^^^ (st.b &&& st.c)
  let temp2 := w32 (s0 + maj)
  ⟨w32 (temp1 + temp2), st.a, st.b, st.c, w32 (st.d + temp1), st.e, st.f, st.g⟩

/-- Group bytes into big-endian 32-bit words. -/
def bytesToWords : List Nat → List Nat
  | b0 :: b1 :: b2 :: b3 :: rest => (((b0 * 256 + b1) * 256 + b2) * 256 + b3) :: bytesToWords rest
  | _ => []

/-- Extend a 16-word message block by `n` further schedule words. -/
def shaSchedule (ws : List Nat) : Nat → List Nat
  | 0 => ws
  | n + 1 =>
    let prev := shaSchedule ws n
    let i := prev.length
    let s0 := rotr 7 (prev.getD (i - 15) 0) ^^^ rotr 18 (prev.getD (i - 15) 0) ^^^
      (prev.getD (i - 15) 0 >>> 3)
    let s1 := rotr 17 (prev.getD (i - 2) 0) ^^^ rotr 19 (prev.getD (i - 2) 0) ^^^
      (prev.getD (i - 2) 0 >>> 10)
    prev ++ [w32 (prev.getD (i - 16) 0 + s0 + prev.getD (i - 7) 0 + s1)]

/-- Compress one 64-byte chunk into the running hash. -/
def shaChunk (hv : ShaHash) (chunk : List Nat) : ShaHash :=
  let ws := shaSchedule (bytesToWords chunk) 48
  let st0 : ShaRegs := ⟨hv.h0, hv.h1, hv.h2, hv.h3, hv.h4, hv.h5, hv.h6, hv.h7⟩
  let st := (shaK.zip ws).foldl shaRound st0
  ⟨w32 (hv.h0 + st.a), w32 (hv.h1 + st.b), w32 (hv.h2 + st.c), w32 (hv.h3 + st.d),
   w32 (hv.h4 + st.e), w32 (hv.h5 + st.f), w32 (hv.h6 + st.g), w32 (hv.h7 + st.h)⟩

/-- Big-endian 8-byte encoding of a (64-bit) length. -/
def beBytes8 (n : Nat) : List Nat :=
  [n / 72057594037927936 % 256, n / 281474976710656 % 256, n / 1099511627776 % 256,
   n / 4294967296 % 256, n / 16777216 % 256, n / 65536 % 256, n / 256 % 256, n % 256]

/-- SHA-256 message padding: `0x80`, zeros to 56 mod 64, 8-byte bit length. -/
def shaPad (msg : List Nat) : List Nat :=
  msg ++ [128] ++ List.replicate ((119 - msg.length % 64) % 64) 0 ++ beBytes8 (8 * msg.length)

/-- Split a byte list into 64-byte chunks (fuelled, hence structural). -/
def chunks64Aux : Nat → List Nat → List (List Nat)
  | 0, _ => []
  | _, [] => []
  | n + 1, l => l.take 64 :: chunks64Aux n (l.drop 64)

/-- Split a byte list into 64-byte chunks. -/
def chunks64 (l : List Nat) : List (List Nat) := chunks64Aux l.length l

/-- SHA-256 of a byte list, as the final eight-word hash. -/
def sha256Words (msg : List Nat) : ShaHash :=
  (chunks64 (shaPad msg)).foldl shaChunk shaInit

/-- Lowercase hex digit. -/
def hexDigit (n : Nat) : Char :=
  ("0123456789abcdef".data.getD n '0')

/-- Fixed-width (8 hex characters) rendering of a 32-bit word. -/
def wordHex (w : Nat) : String :=
  String.mk ((List.range 8).map fun i => hexDigit (w / 16 ^ (7 - i) % 16))

/-- `hexdigest()` of the final hash. -/
def hexDigest (hv : ShaHash) : String :=
  wordHex hv.h0 ++ wordHex hv.h1 ++ wordHex hv.h2 ++ wordHex hv.h3 ++
    wordHex hv.h4 ++ wordHex hv.h5 ++ wordHex hv.h6 ++ wordHex hv.h7

/-- UTF-8 encoding of one character (`str.encode("utf-8")`). -/
def utf8EncodeChar (c : Char) : List Nat :=
  let n := c.toNat
  if n < 128 then [n]
  else if n < 2048 then [192 + n / 64, 128 + n % 64]
  else if n < 65536 then [224 + n / 4096, 128 + n / 64 % 64, 128 + n % 64]
  else [240 + n / 262144, 128 + n / 4096 % 64, 128 + n / 64 % 64, 128 + n % 64]

/-- UTF-8 encoding of a string as a byte list. -/
def utf8Bytes (s : String) : List Nat :=
  s.data.foldr (fun c acc => utf8EncodeChar c ++ acc) []

/-- Four-digit lowercase hex rendering for a `\uXXXX` escape. -/
def hex4 (n : Nat) : String :=
  String.mk [hexDigit (n / 4096 % 16), hexDigit (n / 256 % 16), hexDigit (n / 16 % 16),
    hexDigit (n % 16)]

/-- `json.dumps` escaping of one character (default `ensure_ascii=True`):
short escapes for the usual control characters, `\uXXXX` (with surrogate
pairs above U+FFFF) for everything outside `0x20..0x7e`. -/
def json_escape_char (c : Char) : String :=
  if c = '"' then "\\\""
  else if c = '\\' then "\\\\"
  else if c = '\n' then "\\n"
  else if c = '\r' then "\\r"
  else if c = '\t' then "\\t"
  else if c.toNat = 8 then "\\b"
  else if c.toNat = 12 then "\\f"
  else if 32 ≤ c.toNat ∧ c.toNat ≤ 126 then String.mk [c]
  else if c.toNat < 65536 then "\\u" ++ hex4 c.toNat
  else
    let v := c.toNat - 65536
    "\\u" ++ hex4 (55296 + v / 1024) ++ "\\u" ++ hex4 (56320 + v % 1024)

/-- A JSON string literal as `json.dumps` renders it. -/
def json_quote (s : String) : String :=
  "\"" ++ (s.data.map json_escape_char).foldr (· ++ ·) "" ++ "\""

/-- Exact rendering of the rational standing in for a Python float (the
decimal `repr` of the float is abstracted by an exact fraction). -/
def ratRepr (q : ℚ) : String :=
  toString q.num ++ "/" ++ toString q.den

/-- Rendering of one scalar value as `json.dumps` does. -/
def scalar_repr : JScalar → String
  | .null => "null"
  | .bool true => "true"
  | .bool false => "false"
  | .int n => toString n
  | .str s => json_quote s
  | .num q => ratRepr q

/-- Python string `<` (code-point lexicographic), used by `sort_keys=True`. -/
def strLt (s t : String) : Bool :=
  charListLt s.data t.data
where
  charListLt : List Char → List Char → Bool
    | [], [] => false
    | [], _ :: _ => true
    | _ :: _, [] => false
    | a :: as, b :: bs =>
      if a.toNat < b.toNat then true
      else if b.toNat < a.toNat then false
      else charListLt as bs

/-- Insertion into a key-sorted association list. -/
def insertByKey (kv : String × JScalar) : List (String × JScalar) → List (String × JScalar)
  | [] => [kv]
  | h :: t => if strLt kv.1 h.1 then kv :: h :: t else h :: insertByKey kv t

/-- Canonical key-sorting of a mapping (`sort_keys=True`). -/
def sortByKey : List (String × JScalar) → List (String × JScalar)
  | [] => []
  | h :: t => insertByKey h (sortByKey t)

/-- Comma-join (`separators=(",", ":")` puts no spaces). -/
def joinComma : List String → String
  | [] => ""
  | [s] => s
  | s :: rest => s ++ "," ++ joinComma rest

/-- `json.dumps(m, sort_keys=True, separators=(",", ":"))` for a flat mapping
of field names to scalars. -/
def dumps_sorted (m : List (String × JScalar)) : String :=
  "\x7b" ++ joinComma ((sortByKey m).map fun kv => json_quote kv.1 ++ ":" ++ scalar_repr kv.2) ++
    "\x7d"

/-- `utils.sha256_json` on a flat mapping of field names to scalar values. -/
def sha256_json (m : List (String × JScalar)) : String :=
  hexDigest (sha256Words (utf8Bytes (dumps_sorted m)))

/-! ### Unit converters (`utils.py`) -/

/-- `utils.kg_to_lb`; the float factor `2.2046226218` is taken exactly. -/
def kg_to_lb : Option ℚ → Option ℚ
  | none => none
  | some kg => some (kg * (22046226218 / 10000000000 : ℚ))

/-- `utils.cm_to_in`; the float factor `0.3937007874` is taken exactly. -/
def cm_to_in : Option ℚ → Option ℚ
  | none => none
  | some cm => some (cm * (3937007874 / 10000000000 : ℚ))

/-! ### Sync orchestrator (`sync_logic.py: SyncService.run_delta_sync`)

The SQLAlchemy model classes `Product`, `SyncRun`, `SyncError` and
`FulfilCursor` are imported by `sync_logic.py` from `mediator.models.models`
but are not declared in the sources available; the structures below model
those rows from their uses in `sync_logic.py` together with spec §3
(MirrorRecord, SyncRun, SyncErrorEntry, SyncCursor).  Timestamps are `Nat`
(UTC seconds); `datetime.fromisoformat` parsing is absorbed into the
`write_date` field already being a timestamp. -/

/-- One raw record as pulled from `fulfil.delta` (fields accessed by
`_to_db_record` and the error handler). -/
structure RawRecord where
  id : Nat
  code : Option String
  variant_name : Option String
  upc : Option String
  hs_code : Option String
  country_of_origin : Option String
  weight : Option ℚ
  length : Option ℚ
  width : Option ℚ
  height : Option ℚ
  write_date : Nat
  deriving DecidableEq

/-- The dict returned by `SyncService._to_db_record`. -/
structure DbRecord where
  fulfil_product_id : Nat
  sku : String
  variant_name : Option String
  upc : Option String
  hs_code : Option String
  country_of_origin : Option String
  weight_kg : Option ℚ
  length_cm : Option ℚ
  width_cm : Option ℚ
  height_cm : Option ℚ
  fulfil_write_date : Nat
  deriving DecidableEq

/-- `x or None` on an optional string: empty strings collapse to `None`. -/
def or_none_str : Option String → Option String
  | some "" => none
  | x => x

/-- `SyncService._to_db_record`: validation plus field mapping; a missing or
empty SKU `code` raises `ValueError`. -/
def to_db_record (p : RawRecord) : Except String DbRecord :=
  match p.code with
  | none => .error "Missing SKU \x27code\x27 from Fulfil record"
  | some c =>
    if c = "" then .error "Missing SKU \x27code\x27 from Fulfil record"
    else
      .ok ⟨p.id, c, p.variant_name, p.upc, p.hs_code, or_none_str p.country_of_origin,
        p.weight, p.length, p.width, p.height, p.write_date⟩

/-- The mirror row (`Product` model) as read and written by `sync_logic.py`. -/
structure MirrorRow where
  fulfil_product_id : Nat
  sku : String
  variant_name : Option String
  upc : Option String
  hs_code : Option String
  country_of_origin : Option String
  weight_kg : Option ℚ
  length_cm : Option ℚ
  width_cm : Option ℚ
  height_cm : Option ℚ
  fulfil_write_date : Nat
  shiphero_product_id : Option String
  shiphero_payload_hash : Option String
  shiphero_last_push_at : Option Nat
  deriving DecidableEq

/-- The per-field `setattr` overwrite loop of the upsert: every `DbRecord`
field replaces the mirror row's, the ShipHero tracking fields survive. -/
def apply_record (row : MirrorRow) (rec : DbRecord) : MirrorRow :=
  { row with
    fulfil_product_id := rec.fulfil_product_id, sku := rec.sku,
    variant_name := rec.variant_name, upc := rec.upc, hs_code := rec.hs_code,
    country_of_origin := rec.country_of_origin, weight_kg := rec.weight_kg,
    length_cm := rec.length_cm, width_cm := rec.width_cm, height_cm := rec.height_cm,
    fulfil_write_date := rec.fulfil_write_date }

/-- `Product(**rec)`: a fresh mirror row, ShipHero tracking fields `NULL`. -/
def new_row (rec : DbRecord) : MirrorRow :=
  ⟨rec.fulfil_product_id, rec.sku, rec.variant_name, rec.upc, rec.hs_code,
    rec.country_of_origin, rec.weight_kg, rec.length_cm, rec.width_cm, rec.height_cm,
    rec.fulfil_write_date, none, none, none⟩

/-- The dict built by `SyncService._to_shiphero_payload`. -/
structure ShipPayload where
  sku : String
  name : String
  barcode : Option String
  tariff_code : Option String
  country_of_manufacture : Option String
  weight : Option ℚ
  height : Option ℚ
  width : Option ℚ
  length : Option ℚ
  deriving DecidableEq

/-- `SyncService._to_shiphero_payload`. -/
def to_shiphero_payload (row : MirrorRow) : ShipPayload :=
  { sku := row.sku
    name := match row.variant_name with
      | some v => if v = "" then row.sku else v
      | none => row.sku
    barcode := row.upc
    tariff_code := row.hs_code
    country_of_manufacture := or_none_str row.country_of_origin
    weight := kg_to_lb row.weight_kg
    height := cm_to_in row.height_cm
    width := cm_to_in row.width_cm
    length := cm_to_in row.length_cm }

/-- Optional string as a JSON scalar (`None` → `null`). -/
def opt_str_scalar : Option String → JScalar
  | some s => .str s
  | none => .null

/-- Optional number as a JSON scalar (`None` → `null`). -/
def opt_num_scalar : Option ℚ → JScalar
  | some q => .num q
  | none => .null

/-- The payload dict as the mapping handed to `sha256_json`. -/
def payload_mapping (p : ShipPayload) : List (String × JScalar) :=
  [("sku", .str p.sku), ("name", .str p.name), ("barcode", opt_str_scalar p.barcode),
   ("tariff_code", opt_str_scalar p.tariff_code),
   ("country_of_manufacture", opt_str_scalar p.country_of_manufacture),
   ("weight", opt_num_scalar p.weight), ("height", opt_num_scalar p.height),
   ("width", opt_num_scalar p.width), ("length", opt_num_scalar p.length)]

/-- The `payload_hash` computed per record. -/
def payload_hash_of (row : MirrorRow) : String :=
  sha256_json (payload_mapping (to_shiphero_payload row))

/-- The `FulfilCursor` singleton row. -/
structure CursorRow where
  last_write_ts : Option Nat
  last_id : Option Nat
  deriving DecidableEq

/-- One `SyncError` row. -/
structure SyncErrorRow where
  sync_run_id : Nat
  sku : Option String
  fulfil_product_id : Option Nat
  stage : String
  error_message : String
  payload_snippet : Option String
  deriving DecidableEq

/-- The `SyncRun` counters and status. -/
structure SyncRunRow where
  status : String
  total_polled : Nat
  upserts_to_db : Nat
  pushes_to_shiphero : Nat
  skipped_no_change : Nat
  errors_count : Nat
  deriving DecidableEq

/-- The database state touched by the orchestrator. -/
structure SyncDB where
  products : List MirrorRow
  cursor : Option CursorRow
  sync_errors : List SyncErrorRow
  deriving DecidableEq

/-- `SyncService._get_cursor`: lazily create the singleton cursor row. -/
def get_cursor (db : SyncDB) : SyncDB × CursorRow :=
  match db.cursor with
  | some c => (db, c)
  | none => ({ db with cursor := some ⟨none, none⟩ }, ⟨none, none⟩)

/-- `SyncService._advance_cursor`: unconditional assignment of the record's
write timestamp and id. -/
def advance_cursor (db : SyncDB) (write_ts : Nat) (pid : Nat) : SyncDB :=
  { (get_cursor db).1 with cursor := some ⟨some write_ts, some pid⟩ }

/-- The upsert by `fulfil_product_id`: overwrite the existing row's fields or
add a new row; returns the flushed row. -/
def upsert_product (db : SyncDB) (rec : DbRecord) : SyncDB × MirrorRow :=
  match db.products.find? (fun r => r.fulfil_product_id = rec.fulfil_product_id) with
  | some _ =>
    let replace := fun (r : MirrorRow) =>
      if r.fulfil_product_id = rec.fulfil_product_id then apply_record r rec else r
    ({ db with products := db.products.map replace }, apply_record
      ((db.products.find? (fun r => r.fulfil_product_id = rec.fulfil_product_id)).getD
        (new_row rec)) rec)
  | none => ({ db with products := db.products ++ [new_row rec] }, new_row rec)

/-- Persist the post-push mutations of the fetched row. -/
def store_product (db : SyncDB) (row : MirrorRow) : SyncDB :=
  { db with products := db.products.map fun r =>
      if r.fulfil_product_id = row.fulfil_product_id then row else r }

/-- The ShipHero mutation response `product` node. -/
structure RespNode where
  id : Option String
  deriving DecidableEq

/-- One of `product_create` / `product_update` in the response `data`.
`errors` is `some` exactly when the response carried a truthy `errors` value
(rendered to the string interpolated into the raised `RuntimeError`). -/
structure MutResp where
  errors : Option String
  product : Option RespNode
  deriving DecidableEq

/-- The parsed response `data` of a create/update call. -/
structure ShipResp where
  product_create : Option MutResp
  product_update : Option MutResp
  deriving DecidableEq

/-- A downstream client invocation, recorded for the call trace. -/
inductive ShipCall where
  | create (payload : ShipPayload)
  | update (payload : ShipPayload) (id : String)
  deriving DecidableEq

/-- The external collaborators of one run: the Fulfil delta pull (a function
of the `since` watermark), the ShipHero client calls (either a raised
transport error or a parsed response), and the wall clock. -/
structure SyncEnv where
  delta : Nat → Except String (List RawRecord)
  create : ShipPayload → Except String ShipResp
  update : ShipPayload → String → Except String ShipResp
  now : Nat

/-- The create-or-update call and response handling of the push block
(lines 112–139): returns the calls made and either the raised exception or
the response's product node. -/
def handle_push (env : SyncEnv) (row : MirrorRow) (payload : ShipPayload) :
    List ShipCall × Except String (Option RespNode) :=
  let (call, res) :=
    match row.shiphero_product_id with
    | some pid =>
      if pid = "" then ([ShipCall.create payload], env.create payload)
      else ([ShipCall.update payload pid], env.update payload pid)
    | none => ([ShipCall.create payload], env.create payload)
  match res with
  | .error e => (call, .error e)
  | .ok resp =>
    let create_data := resp.product_create.getD ⟨none, none⟩
    let update_data := resp.product_update.getD ⟨none, none⟩
    let errors := create_data.errors <|> update_data.errors
    let node := create_data.product <|> update_data.product
    match errors with
    | some errs => (call, .error ("ShipHero API errors: " ++ errs))
    | none => (call, .ok node)

/-- A printable rendering of the raw record, standing in for Python `str(p)`. -/
def raw_record_str (p : RawRecord) : String :=
  "id=" ++ toString p.id ++ " code=" ++ (p.code.getD "None") ++
    " variant_name=" ++ (p.variant_name.getD "None") ++ " upc=" ++ (p.upc.getD "None") ++
    " hs_code=" ++ (p.hs_code.getD "None") ++
    " country_of_origin=" ++ (p.country_of_origin.getD "None") ++
    " weight=" ++ ((p.weight.map ratRepr).getD "None") ++
    " length=" ++ ((p.length.map ratRepr).getD "None") ++
    " width=" ++ ((p.width.map ratRepr).getD "None") ++
    " height=" ++ ((p.height.map ratRepr).getD "None") ++
    " write_date=" ++ toString p.write_date

/-- Python slice `s[:n]`. -/
def str_take (s : String) (n : Nat) : String := String.mk (s.data.take n)

/-- The `except` block of the per-record loop (lines 149–168): error counter,
one `SyncError` row with stage `sync` and the truncated payload. -/
def record_error (db : SyncDB) (run : SyncRunRow) (run_id : Nat) (p : RawRecord)
    (msg : String) : SyncDB × SyncRunRow :=
  ({ db with sync_errors := db.sync_errors ++
      [⟨run_id, p.code, some p.id, "sync", msg, some (str_take (raw_record_str p) 1000)⟩] },
   { run with errors_count := run.errors_count + 1 })

/-- The mirror-row mutations of a successful push (lines 131–136):
`shiphero_product_id` from the response node if truthy, the new fingerprint,
the push timestamp. -/
def pushed_row (env : SyncEnv) (row : MirrorRow) (payload_hash : String)
    (node : Option RespNode) : MirrorRow :=
  { row with
    shiphero_product_id :=
      match node with
      | some n =>
        match n.id with
        | some i => if i = "" then row.shiphero_product_id else some i
        | none => row.shiphero_product_id
      | none => row.shiphero_product_id,
    shiphero_payload_hash := some payload_hash,
    shiphero_last_push_at := some env.now }

/-- One iteration of the per-record loop of `run_delta_sync` (lines 87–168),
threading the database, the run row and the downstream call trace. -/
def process_record (env : SyncEnv) (run_id : Nat) (st : SyncDB × SyncRunRow × List ShipCall)
    (p : RawRecord) : SyncDB × SyncRunRow × List ShipCall :=
  let db := st.1
  let run := { st.2.1 with total_polled := st.2.1.total_polled + 1 }
  let calls := st.2.2
  match to_db_record p with
  | .error e =>
    ((record_error db run run_id p e).1, (record_error db run run_id p e).2, calls)
  | .ok rec =>
    let db1 := (upsert_product db rec).1
    let row := (upsert_product db rec).2
    let run1 := { run with upserts_to_db := run.upserts_to_db + 1 }
    let payload := to_shiphero_payload row
    let payload_hash := sha256_json (payload_mapping payload)
    if row.shiphero_payload_hash = some payload_hash then
      (advance_cursor db1 row.fulfil_write_date row.fulfil_product_id,
       { run1 with skipped_no_change := run1.skipped_no_change + 1 }, calls)
    else
      match (handle_push env row payload).2 with
      | .error e =>
        ((record_error db1 run1 run_id p e).1, (record_error db1 run1 run_id p e).2,
         calls ++ (handle_push env row payload).1)
      | .ok node =>
        let row' := pushed_row env row payload_hash node
        (advance_cursor (store_product db1 row') row'.fulfil_write_date row'.fulfil_product_id,
         { run1 with pushes_to_shiphero := run1.pushes_to_shiphero + 1 },
         calls ++ (handle_push env row payload).1)

/-- `SyncService.run_delta_sync`, one invocation: returns the final database,
the finalized run row and the trace of downstream client calls. -/
def run_delta_sync (env : SyncEnv) (run_id : Nat) (db0 : SyncDB) :
    SyncDB × SyncRunRow × List ShipCall :=
  let run : SyncRunRow := ⟨"running", 0, 0, 0, 0, 0⟩
  let db := (get_cursor db0).1
  let since := (get_cursor db0).2.last_write_ts.getD 0
  match env.delta since with
  | .error e =>
    ({ db with sync_errors := db.sync_errors ++ [⟨run_id, none, none, "run", e, none⟩] },
     { run with status := "failed" }, [])
  | .ok products =>
    let r := products.foldl (process_record env run_id) (db, run, [])
    (r.1, { r.2.1 with status := if r.2.1.errors_count = 0 then "success" else "partial" },
     r.2.2)

/-- The cursor watermark of a database state. -/
def watermark (db : SyncDB) : Option Nat :=
  match db.cursor with
  | some c => c.last_write_ts
  | none => none

/-! ## Supporting lemmas -/

theorem wordHex_length (w : Nat) : (wordHex w).length = 8 := by
  show ((List.range 8).map _).length = 8
  simp

theorem get_cursor_products (db : SyncDB) : ((get_cursor db).1).products = db.products := by
  unfold get_cursor; cases db.cursor <;> rfl

theorem get_cursor_errors (db : SyncDB) : ((get_cursor db).1).sync_errors = db.sync_errors := by
  unfold get_cursor; cases db.cursor <;> rfl

theorem upsert_product_cursor (db : SyncDB) (rec : DbRecord) :
    ((upsert_product db rec).1).cursor = db.cursor := by
  unfold upsert_product
  cases db.products.find? (fun r => r.fulfil_product_id = rec.fulfil_product_id) <;> rfl

theorem upsert_product_write_date (db : SyncDB) (rec : DbRecord) :
    ((upsert_product db rec).2).fulfil_write_date = rec.fulfil_write_date := by
  unfold upsert_product
  cases db.products.find? (fun r => r.fulfil_product_id = rec.fulfil_product_id) <;> rfl

theorem upsert_product_id (db : SyncDB) (rec : DbRecord) :
    ((upsert_product db rec).2).fulfil_product_id = rec.fulfil_product_id := by
  unfold upsert_product
  cases db.products.find? (fun r => r.fulfil_product_id = rec.fulfil_product_id) <;> rfl

theorem upsert_product_payload (db : SyncDB) (rec : DbRecord) :
    to_shiphero_payload (upsert_product db rec).2 = to_shiphero_payload (new_row rec) := by
  unfold upsert_product
  cases db.products.find? (fun r => r.fulfil_product_id = rec.fulfil_product_id) <;> rfl

theorem apply_record_payload (row : MirrorRow) (rec : DbRecord) :
    to_shiphero_payload (apply_record row rec) = to_shiphero_payload (new_row rec) := rfl

theorem store_product_cursor (db : SyncDB) (row : MirrorRow) :
    (store_product db row).cursor = db.cursor := rfl

theorem advance_cursor_watermark (db : SyncDB) (ts pid : Nat) :
    watermark (advance_cursor db ts pid) = some ts := by
  unfold advance_cursor watermark
  cases h : db.cursor <;> simp [get_cursor, h]

theorem record_error_cursor (db : SyncDB) (run : SyncRunRow) (run_id : Nat) (p : RawRecord)
    (msg : String) : ((record_error db run run_id p msg).1).cursor = db.cursor := rfl

theorem to_db_record_write_date (p : RawRecord) (rec : DbRecord)
    (h : to_db_record p = .ok rec) : rec.fulfil_write_date = p.write_date := by
  unfold to_db_record at h
  cases hc : p.code with
  | none => rw [hc] at h; exact absurd h (by simp)
  | some c =>
    rw [hc] at h
    by_cases hce : c = "" <;> simp [hce] at h
    rw [← h]

theorem str_take_length_le (s : String) (n : Nat) : (str_take s n).length ≤ n := by
  show (s.data.take n).length ≤ n
  simp [List.length_take]

/-- Keys surviving the payload filter were keys of the input payload. -/
theorem filter_payload_fields_keys (introspect : Introspect) (input_fields : List InputField)
    (l : List (String × JValue)) :
    ∀ kv ∈ filter_payload_fields introspect input_fields l, ∃ v, (kv.1, v) ∈ l := by
  induction l with
  | nil => intro kv h; exact absurd h (by simp [filter_payload_fields])
  | cons hd tl ih =>
    intro kv h
    obtain ⟨key, value⟩ := hd
    unfold filter_payload_fields at h
    cases hf : dict_get_last input_fields key with
    | none =>
      rw [hf] at h
      obtain ⟨v, hv⟩ := ih kv h
      exact ⟨v, List.mem_cons_of_mem _ hv⟩
    | some fdef =>
      rw [hf] at h
      cases value with
      | obj fs =>
        rcases List.mem_cons.mp h with h1 | h1
        · exact ⟨_, by rw [h1]; exact List.mem_cons_self _ _⟩
        · obtain ⟨v, hv⟩ := ih kv h1
          exact ⟨v, List.mem_cons_of_mem _ hv⟩
      | arr items =>
        rcases List.mem_cons.mp h with h1 | h1
        · exact ⟨_, by rw [h1]; exact List.mem_cons_self _ _⟩
        · obtain ⟨v, hv⟩ := ih kv h1
          exact ⟨v, List.mem_cons_of_mem _ hv⟩
      | null =>
        rcases List.mem_cons.mp h with h1 | h1
        · exact ⟨_, by rw [h1]; exact List.mem_cons_self _ _⟩
        · obtain ⟨v, hv⟩ := ih kv h1
          exact ⟨v, List.mem_cons_of_mem _ hv⟩
      | bool b =>
        rcases List.mem_cons.mp h with h1 | h1
        · exact ⟨_, by rw [h1]; exact List.mem_cons_self _ _⟩
        · obtain ⟨v, hv⟩ := ih kv h1
          exact ⟨v, List.mem_cons_of_mem _ hv⟩
      | int n =>
        rcases List.mem_cons.mp h with h1 | h1
        · exact ⟨_, by rw [h1]; exact List.mem_cons_self _ _⟩
        · obtain ⟨v, hv⟩ := ih kv h1
          exact ⟨v, List.mem_cons_of_mem _ hv⟩
      | str s =>
        rcases List.mem_cons.mp h with h1 | h1
        · exact ⟨_, by rw [h1]; exact List.mem_cons_self _ _⟩
        · obtain ⟨v, hv⟩ := ih kv h1
          exact ⟨v, List.mem_cons_of_mem _ hv⟩

theorem upsert_product_errors (db : SyncDB) (rec : DbRecord) :
    ((upsert_product db rec).1).sync_errors = db.sync_errors := by
  unfold upsert_product
  cases db.products.find? (fun r => r.fulfil_product_id = rec.fulfil_product_id) <;> rfl

theorem pushed_row_id (env : SyncEnv) (row : MirrorRow) (h : String) (node : Option RespNode) :
    (pushed_row env row h node).fulfil_product_id = row.fulfil_product_id := rfl

theorem pushed_row_hash (env : SyncEnv) (row : MirrorRow) (h : String) (node : Option RespNode) :
    (pushed_row env row h node).shiphero_payload_hash = some h := rfl

theorem pushed_row_write_date (env : SyncEnv) (row : MirrorRow) (h : String)
    (node : Option RespNode) :
    (pushed_row env row h node).fulfil_write_date = row.fulfil_write_date := rfl

theorem apply_record_hash (row : MirrorRow) (rec : DbRecord) :
    (apply_record row rec).shiphero_payload_hash = row.shiphero_payload_hash := rfl

theorem advance_cursor_cursor (db : SyncDB) (ts pid : Nat) :
    (advance_cursor db ts pid).cursor = some ⟨some ts, some pid⟩ := rfl

theorem advance_cursor_products (db : SyncDB) (ts pid : Nat) :
    (advance_cursor db ts pid).products = db.products := by
  unfold advance_cursor
  rw [get_cursor_products]

theorem store_product_products (db : SyncDB) (row : MirrorRow) :
    (store_product db row).products =
      db.products.map fun r =>
        if r.fulfil_product_id = row.fulfil_product_id then row else r := rfl

theorem get_cursor_of_some (db : SyncDB) (c : CursorRow) (h : db.cursor = some c) :
    get_cursor db = (db, c) := by
  unfold get_cursor
  rw [h]

theorem watermark_record_error (db : SyncDB) (run : SyncRunRow) (run_id : Nat) (p : RawRecord)
    (msg : String) : watermark (record_error db run run_id p msg).1 = watermark db := rfl

/-- Branch equation: a record failing normalization. -/
theorem process_record_norm_error (env : SyncEnv) (run_id : Nat) (db : SyncDB)
    (run : SyncRunRow) (calls : List ShipCall) (p : RawRecord) (e : String)
    (h : to_db_record p = .error e) :
    process_record env run_id (db, run, calls) p =
      ((record_error db { run with total_polled := run.total_polled + 1 } run_id p e).1,
       (record_error db { run with total_polled := run.total_polled + 1 } run_id p e).2,
       calls) := by
  unfold process_record
  simp [h]

/-- Branch equation: a record whose stored fingerprint matches the freshly
computed payload hash. -/
theorem process_record_skip (env : SyncEnv) (run_id : Nat) (db : SyncDB) (run : SyncRunRow)
    (calls : List ShipCall) (p : RawRecord) (rec : DbRecord)
    (h1 : to_db_record p = .ok rec)
    (h2 : ((upsert_product db rec).2).shiphero_payload_hash =
      some (sha256_json (payload_mapping (to_shiphero_payload (upsert_product db rec).2)))) :
    process_record env run_id (db, run, calls) p =
      (advance_cursor (upsert_product db rec).1 ((upsert_product db rec).2).fulfil_write_date
         ((upsert_product db rec).2).fulfil_product_id,
       { run with total_polled := run.total_polled + 1,
                  upserts_to_db := run.upserts_to_db + 1,
                  skipped_no_change := run.skipped_no_change + 1 },
       calls) := by
  unfold process_record
  simp [h1, h2]

/-- Branch equation: a changed record whose push raises or returns a GraphQL
error list. -/
theorem process_record_push_error (env : SyncEnv) (run_id : Nat) (db : SyncDB)
    (run : SyncRunRow) (calls : List ShipCall) (p : RawRecord) (rec : DbRecord) (e : String)
    (h1 : to_db_record p = .ok rec)
    (h2 : ¬ ((upsert_product db rec).2).shiphero_payload_hash =
      some (sha256_json (payload_mapping (to_shiphero_payload (upsert_product db rec).2))))
    (h3 : (handle_push env (upsert_product db rec).2
      (to_shiphero_payload (upsert_product db rec).2)).2 = .error e) :
    process_record env run_id (db, run, calls) p =
      ((record_error (upsert_product db rec).1
          { run with total_polled := run.total_polled + 1,
                     upserts_to_db := run.upserts_to_db + 1 } run_id p e).1,
       (record_error (upsert_product db rec).1
          { run with total_polled := run.total_polled + 1,
                     upserts_to_db := run.upserts_to_db + 1 } run_id p e).2,
       calls ++ (handle_push env (upsert_product db rec).2
         (to_shiphero_payload (upsert_product db rec).2)).1) := by
  unfold process_record
  simp [h1, h2, h3]

/-- Branch equation: a changed record whose push succeeds. -/
theorem process_record_push_ok (env : SyncEnv) (run_id : Nat) (db : SyncDB) (run : SyncRunRow)
    (calls : List ShipCall) (p : RawRecord) (rec : DbRecord) (node : Option RespNode)
    (h1 : to_db_record p = .ok rec)
    (h2 : ¬ ((upsert_product db rec).2).shiphero_payload_hash =
      some (sha256_json (payload_mapping (to_shiphero_payload (upsert_product db rec).2))))
    (h3 : (handle_push env (upsert_product db rec).2
      (to_shiphero_payload (upsert_product db rec).2)).2 = .ok node) :
    process_record env run_id (db, run, calls) p =
      (advance_cursor
         (store_product (upsert_product db rec).1
           (pushed_row env (upsert_product db rec).2
             (sha256_json (payload_mapping (to_shiphero_payload (upsert_product db rec).2)))
             node))
         (pushed_row env (upsert_product db rec).2
           (sha256_json (payload_mapping (to_shiphero_payload (upsert_product db rec).2)))
           node).fulfil_write_date
         (pushed_row env (upsert_product db rec).2
           (sha256_json (payload_mapping (to_shiphero_payload (upsert_product db rec).2)))
           node).fulfil_product_id,
       { run with total_polled := run.total_polled + 1,
                  upserts_to_db := run.upserts_to_db + 1,
                  pushes_to_shiphero := run.pushes_to_shiphero + 1 },
       calls ++ (handle_push env (upsert_product db rec).2
         (to_shiphero_payload (upsert_product db rec).2)).1) := by
  unfold process_record
  simp [h1, h2, h3]

/-- Every branch of the per-record loop counts the record as polled. -/
theorem process_record_total_polled (env : SyncEnv) (run_id : Nat)
    (st : SyncDB × SyncRunRow × List ShipCall) (p : RawRecord) :
    (process_record env run_id st p).2.1.total_polled = st.2.1.total_polled + 1 := by
  unfold process_record
  cases h : to_db_record p with
  | error e => simp [record_error]
  | ok rec =>
    by_cases h2 : ((upsert_product st.1 rec).2).shiphero_payload_hash =
        some (sha256_json (payload_mapping (to_shiphero_payload (upsert_product st.1 rec).2)))
    · simp [h2]
    · cases h3 : (handle_push env (upsert_product st.1 rec).2
          (to_shiphero_payload (upsert_product st.1 rec).2)).2 with
      | error e => simp [h2, h3, record_error]
      | ok node => simp [h2, h3]

/-- A single-record pull makes `run_delta_sync` one `process_record` step. -/
theorem run_delta_sync_single (env : SyncEnv) (run_id : Nat) (db0 : SyncDB) (p : RawRecord)
    (h : env.delta ((get_cursor db0).2.last_write_ts.getD 0) = .ok [p]) :
    run_delta_sync env run_id db0 =
      ((process_record env run_id ((get_cursor db0).1, ⟨"running", 0, 0, 0, 0, 0⟩, []) p).1,
       { (process_record env run_id ((get_cursor db0).1, ⟨"running", 0, 0, 0, 0, 0⟩, []) p).2.1
           with status :=
             if (process_record env run_id
                  ((get_cursor db0).1, ⟨"running", 0, 0, 0, 0, 0⟩, []) p).2.1.errors_count = 0
             then "success" else "partial" },
       (process_record env run_id ((get_cursor db0).1, ⟨"running", 0, 0, 0, 0, 0⟩, []) p).2.2) := by
  unfold run_delta_sync
  simp [h]

theorem upsert_product_mem (db : SyncDB) (rec : DbRecord) :
    ∃ r ∈ ((upsert_product db rec).1).products,
      r.fulfil_product_id = rec.fulfil_product_id := by
  unfold upsert_product
  cases hf : db.products.find? (fun r => r.fulfil_product_id = rec.fulfil_product_id) with
  | none => exact ⟨new_row rec, by simp, rfl⟩
  | some r0 =>
    have hr0 : r0 ∈ db.products := List.mem_of_find?_eq_some hf
    have hid : r0.fulfil_product_id = rec.fulfil_product_id := by
      have := List.find?_some hf
      simpa using this
    refine ⟨apply_record r0 rec, ?_, rfl⟩
    simp only
    exact List.mem_map.mpr ⟨r0, hr0, by simp [hid]⟩

theorem upsert_product_of_find (db : SyncDB) (rec : DbRecord) (r0 : MirrorRow)
    (hfind : db.products.find? (fun r => r.fulfil_product_id = rec.fulfil_product_id) =
      some r0) : (upsert_product db rec).2 = apply_record r0 rec := by
  unfold upsert_product
  simp [hfind]

/-- Replacing every row with a given id and then finding by that id yields the
replacement, provided some row with the id was present. -/
theorem find?_map_replace (l : List MirrorRow) (i : Nat) (row' : MirrorRow)
    (hrow : row'.fulfil_product_id = i) (hex : ∃ r ∈ l, r.fulfil_product_id = i) :
    ((l.map fun r => if r.fulfil_product_id = i then row' else r).find?
      (fun r => r.fulfil_product_id = i)) = some row' := by
  induction l with
  | nil => simp at hex
  | cons hd tl ih =>
    by_cases hh : hd.fulfil_product_id = i
    · simp only [List.map_cons, hh, if_pos, reduceIte]
      exact List.find?_cons_of_pos _ (by simp [hrow])
    · simp only [List.map_cons, hh, if_neg, reduceIte]
      rw [List.find?_cons_of_neg _ (by simp [hh])]
      refine ih ?_
      rcases hex with ⟨r, hr, hri⟩
      rcases List.mem_cons.mp hr with rfl | hr
      · exact absurd hri hh
      · exact ⟨r, hr, hri⟩

/-! ## Claims -/

/-- C6: two finite mappings of field names to scalar values with the same
contents after canonical key-sorting get identical `sha256_json` digests, and
every digest has the fixed length 64; the digest is a pure function of the
sorted contents. -/
theorem C6_sha256_json_canonical :
    (∀ m1 m2 : List (String × JScalar), sortByKey m1 = sortByKey m2 →
      sha256_json m1 = sha256_json m2) ∧
    (∀ m : List (String × JScalar), (sha256_json m).length = 64) := by
  constructor
  · intro m1 m2 h
    unfold sha256_json dumps_sorted
    rw [h]
  · intro m
    unfold sha256_json hexDigest
    simp [String.length_append, wordHex_length]

/-- C6 witness: two concrete mappings with the same pairs in different
insertion order hash identically, and the digest length is 64. -/
theorem C6_witness :
    sha256_json [("b", JScalar.int 2), ("a", JScalar.str "x")] =
      sha256_json [("a", JScalar.str "x"), ("b", JScalar.int 2)] ∧
    (sha256_json [("b", JScalar.int 2), ("a", JScalar.str "x")]).length = 64 :=
  ⟨C6_sha256_json_canonical.1 _ _ (by decide), C6_sha256_json_canonical.2 _⟩

/-- C4: the claim (and spec §4.4, and the code's own comment) say the filter
passes the payload through unchanged when introspection fails; but
`_get_input_fields` catches every introspection failure itself and returns
`[]`, so `_filter_input_payload` then drops every field of the payload and of
each nested sub-payload — the code fails closed, not open.  At the failing
input (introspection raising for every type, payload `{"sku": "SKU-1",
"name": "N"}`), the filtered result is the empty dict, not the payload. -/
theorem C4_fail_closed_at_failing_input :
    filter_input_payload (fun _ => .error "introspection request failed") "UpdateProductInput"
      (.obj [("sku", .str "SKU-1"), ("name", .str "N")]) = .obj [] ∧
    JValue.obj [] ≠ JValue.obj [("sku", JValue.str "SKU-1"), ("name", JValue.str "N")] := by
  exact ⟨rfl, by simp⟩

/-- C7: the update identifier argument is selected among the identifier-like
scalar arguments (deep type `ID` or `String`) by the fixed priority order
`id`, then `legacy_id`, then `sku`, then `product_id`; when none of the four
is a candidate, no identifier argument is recorded. -/
theorem C7_update_id_priority (args : List MutationArg) :
    (∀ t, dict_lookup (update_id_candidates args) "id" = some t →
      select_update_id_arg args = some ("id", t)) ∧
    (dict_lookup (update_id_candidates args) "id" = none →
      ∀ t, dict_lookup (update_id_candidates args) "legacy_id" = some t →
        select_update_id_arg args = some ("legacy_id", t)) ∧
    (dict_lookup (update_id_candidates args) "id" = none →
      dict_lookup (update_id_candidates args) "legacy_id" = none →
      ∀ t, dict_lookup (update_id_candidates args) "sku" = some t →
        select_update_id_arg args = some ("sku", t)) ∧
    (dict_lookup (update_id_candidates args) "id" = none →
      dict_lookup (update_id_candidates args) "legacy_id" = none →
      dict_lookup (update_id_candidates args) "sku" = none →
      ∀ t, dict_lookup (update_id_candidates args) "product_id" = some t →
        select_update_id_arg args = some ("product_id", t)) ∧
    (dict_lookup (update_id_candidates args) "id" = none →
      dict_lookup (update_id_candidates args) "legacy_id" = none →
      dict_lookup (update_id_candidates args) "sku" = none →
      dict_lookup (update_id_candidates args) "product_id" = none →
      select_update_id_arg args = none) := by
  refine ⟨fun t h1 => ?_, fun h1 t h2 => ?_, fun h1 h2 t h3 => ?_,
    fun h1 h2 h3 t h4 => ?_, fun h1 h2 h3 h4 => ?_⟩ <;>
    simp [select_update_id_arg, select_pref, *]

/-- C7 witness: with both `sku` and `id` present as identifier candidates,
`id` wins. -/
theorem C7_witness :
    select_update_id_arg
      [⟨some "data", .mk none (some "UpdateProductInput") .empty⟩,
       ⟨some "sku", .mk none (some "String") .empty⟩,
       ⟨some "id", .mk (some "NON_NULL") none (.mk none (some "ID") .empty)⟩] =
      some ("id", "ID") :=
  (C7_update_id_priority _).1 "ID" (by decide)

/-- The continuation decision as claim C8 words it: a truthy `next` URL
signals continuation; otherwise a present `has_more` boolean decides (by its
value); otherwise integer `page`/`total_pages` decide; otherwise the
full-page heuristic.  Written from the claim, for comparison with
`has_more_pages` (the code). -/
def claim_has_more_rule (data : JValue) (products_count : Nat) (per_page : Nat) : Bool :=
  match data with
  | .obj fields =>
    if (jget fields "next").elim false JValue.truthy then true
    else
      match jget fields "has_more" with
      | some (.bool b) => b
      | _ =>
        match pyInt? (jget fields "page"), pyInt? (jget fields "total_pages") with
        | some page, some total_pages => page < total_pages
        | _, _ => per_page ≤ products_count
  | _ => per_page ≤ products_count

/-- C8 counterexample: with `has_more` present and `false` alongside
`page`/`total_pages`, the claim's rule ("a has_more boolean decides") stops
paging, but the code ignores a non-`True` `has_more` and continues via
`page < total_pages`. -/
theorem C8_counterexample :
    claim_has_more_rule
      (.obj [("has_more", .bool false), ("page", .int 1), ("total_pages", .int 2)]) 0 50 =
      false ∧
    has_more_pages
      (.obj [("has_more", .bool false), ("page", .int 1), ("total_pages", .int 2)]) 0 50 =
      true := by
  exact ⟨rfl, rfl⟩

/-- One rule of the explicit priority-ordered continuation rule list:
`some b` means the rule fires and decides `b`, `none` defers. -/
abbrev PageRule := JValue → Nat → Nat → Option Bool

/-- First-applicable-rule evaluation of a rule list. -/
def first_rule : List PageRule → JValue → Nat → Nat → Bool
  | [], _, _, _ => false
  | r :: rs, d, c, pp =>
    match r d c pp with
    | some b => b
    | none => first_rule rs d c pp

/-- The amended priority-ordered rule list: truthy `next` URL signals
continuation; `has_more` equal to `True` signals continuation (a false or
absent `has_more` defers); integer `page`/`total_pages` decide by
`page < total_pages`; finally the full-page heuristic decides. -/
def continuation_rules : List PageRule :=
  [fun d _ _ =>
     match d with
     | .obj fields => if (jget fields "next").elim false JValue.truthy then some true else none
     | _ => none,
   fun d _ _ =>
     match d with
     | .obj fields =>
       match jget fields "has_more" with
       | some (.bool true) => some true
       | _ => none
     | _ => none,
   fun d _ _ =>
     match d with
     | .obj fields =>
       match pyInt? (jget fields "page"), pyInt? (jget fields "total_pages") with
       | some page, some total_pages => some (decide (page < total_pages))
       | _, _ => none
     | _ => none,
   fun _ c pp => some (decide (pp ≤ c))]

/-- C8 amended: the has-more-pages decision equals the priority-ordered rule
list continuation token > has-more-flag-is-True > page/total_pages >
full-page heuristic, where a false or absent `has_more` does not by itself
stop paging but defers to the later rules. -/
theorem C8_amended_priority_rules (data : JValue) (products_count per_page : Nat) :
    has_more_pages data products_count per_page =
      first_rule continuation_rules data products_count per_page := by
  cases data with
  | obj fields =>
    unfold has_more_pages continuation_rules first_rule
    by_cases hn : (jget fields "next").elim false JValue.truthy
    · simp [hn]
    · simp only [hn, if_false, Bool.false_eq_true, if_neg, reduceIte]
      cases hm : jget fields "has_more" with
      | none =>
        simp only
        cases hp : pyInt? (jget fields "page") <;>
          cases ht : pyInt? (jget fields "total_pages") <;>
            simp [first_rule, hm, hp, ht]
      | some v =>
        cases v with
        | bool b =>
          cases b with
          | true => simp [first_rule, hm]
          | false =>
            cases hp : pyInt? (jget fields "page") <;>
              cases ht : pyInt? (jget fields "total_pages") <;>
                simp [first_rule, hm, hp, ht]
        | null =>
          cases hp : pyInt? (jget fields "page") <;>
            cases ht : pyInt? (jget fields "total_pages") <;>
              simp [first_rule, hm, hp, ht]
        | int n =>
          cases hp : pyInt? (jget fields "page") <;>
            cases ht : pyInt? (jget fields "total_pages") <;>
              simp [first_rule, hm, hp, ht]
        | str s =>
          cases hp : pyInt? (jget fields "page") <;>
            cases ht : pyInt? (jget fields "total_pages") <;>
              simp [first_rule, hm, hp, ht]
        | arr items =>
          cases hp : pyInt? (jget fields "page") <;>
            cases ht : pyInt? (jget fields "total_pages") <;>
              simp [first_rule, hm, hp, ht]
        | obj fs =>
          cases hp : pyInt? (jget fields "page") <;>
            cases ht : pyInt? (jget fields "total_pages") <;>
              simp [first_rule, hm, hp, ht]
  | null => rfl
  | bool b => rfl
  | int n => rfl
  | str s => rfl
  | arr items => rfl

/-- C10: an empty extracted product list ends the paging loop at once — the
accumulated products are returned and no further page is fetched, whatever
continuation signals the response carries — and the loop terminates whenever
some page at or after the current one stops it (empty page or failed
has-more test). -/
theorem C10_get_all_products_stops :
    (∀ (server : Nat → JValue) (per_page fuel page : Nat) (acc : List JValue)
       (fetched : List Nat), (extract_products (server page)).isEmpty = true →
       fetch_pages server per_page (fuel + 1) page acc fetched = some (acc, fetched ++ [page])) ∧
    (∀ (server : Nat → JValue) (fuel : Nat), (extract_products (server 1)).isEmpty = true →
       get_all_products server (fuel + 1) = some ([], [1])) ∧
    (∀ (server : Nat → JValue) (per_page k : Nat), ∀ (page : Nat) (acc : List JValue)
       (fetched : List Nat) (fuel : Nat), page_stops server per_page (page + k) → k < fuel →
       (fetch_pages server per_page fuel page acc fetched).isSome = true) := by
  have hstop : ∀ (server : Nat → JValue) (per_page fuel page : Nat) (acc : List JValue)
      (fetched : List Nat), (extract_products (server page)).isEmpty = true →
      fetch_pages server per_page (fuel + 1) page acc fetched = some (acc, fetched ++ [page]) := by
    intro server per_page fuel page acc fetched h
    unfold fetch_pages
    simp [h]
  refine ⟨hstop, fun server fuel h => hstop server 50 fuel 1 [] [] h, ?_⟩
  intro server per_page k
  induction k with
  | zero =>
    intro page acc fetched fuel hs hk
    obtain ⟨fuel, rfl⟩ : ∃ f, fuel = f + 1 := ⟨fuel - 1, by omega⟩
    rw [Nat.add_zero] at hs
    rcases hs with hs | hs
    · rw [hstop server per_page fuel page acc fetched (by simpa using hs)]; rfl
    · unfold fetch_pages
      by_cases he : (extract_products (server page)).isEmpty
      · simp [he]
      · simp [he, hs]
  | succ k ih =>
    intro page acc fetched fuel hs hk
    obtain ⟨fuel, rfl⟩ : ∃ f, fuel = f + 1 := ⟨fuel - 1, by omega⟩
    by_cases he : (extract_products (server page)).isEmpty
    · rw [hstop server per_page fuel page acc fetched he]; rfl
    · unfold fetch_pages
      by_cases hm : has_more_pages (server page) (extract_products (server page)).length per_page
      · simp only [he, Bool.false_eq_true, if_neg, reduceIte, hm, Bool.not_true]
        exact ih (page + 1) (acc ++ extract_products (server page)) (fetched ++ [page]) fuel
          (by rw [Nat.add_right_comm]; exact hs) (by omega)
      · simp [he, hm]

/-- C10 witness: a server whose first page is empty but still carries a
truthy `next` URL and `has_more: true` — the loop returns at once with one
fetch; and the termination part applied at the same stopping page. -/
theorem C10_witness :
    get_all_products (fun _ => .obj [("data", .arr []), ("next", .str "u"),
      ("has_more", .bool true)]) 5 = some ([], [1]) ∧
    (fetch_pages (fun _ => .obj [("data", .arr []), ("next", .str "u"),
      ("has_more", .bool true)]) 50 5 1 [] []).isSome = true :=
  ⟨C10_get_all_products_stops.2.1 _ 4 (by rfl),
   C10_get_all_products_stops.2.2 _ 50 0 1 [] [] 5 (Or.inl (by rfl)) (by decide)⟩

/-- C9: every member of the fixed create-only field set is removed from the
payload before any introspection-based filtering — whatever the introspection
outcome, detected schema shape, identifier and payload — so none of those
keys ever appears in the `data` sent by `update_product`. -/
theorem C9_update_strips_create_only_fields
    (introspect : Introspect) (update_id_arg_name : Option String)
    (update_input_type_name : String) (identifier : Option String)
    (product_data : List (String × JValue)) (k : String)
    (hk : k ∈ disallowed_on_update) :
    (update_product_sent_data introspect update_id_arg_name update_input_type_name identifier
        product_data).all (fun kv => kv.1 != k) = true := by
  rw [List.all_eq_true]
  have hbase : ∀ kv' ∈ product_data.filter (fun kv => !disallowed_on_update.contains kv.1),
      ¬ kv'.1 = k := by
    intro kv' hkv' heq
    have h2 := (List.mem_filter.mp hkv').2
    rw [heq] at h2
    simp at h2
    exact h2 hk
  have hsafe : ∀ kv ∈ obj_fields (filter_input_payload introspect update_input_type_name
      (.obj (product_data.filter (fun kv => !disallowed_on_update.contains kv.1)))),
      ¬ kv.1 = k := by
    intro kv hkv
    simp only [filter_input_payload, obj_fields] at hkv
    obtain ⟨v, hv⟩ := filter_payload_fields_keys introspect _ _ kv hkv
    exact fun heq => hbase (kv.1, v) hv heq
  have hsku : ¬ (("sku", JValue.str "") : String × JValue).1 = k := by
    intro heq
    simp [disallowed_on_update] at hk
    rcases hk with rfl | rfl | rfl | rfl | rfl | rfl <;> exact absurd heq.symm (by decide)
  intro kv hkv
  simp only [bne_iff_ne, ne_eq, decide_eq_true_eq]
  unfold update_product_sent_data at hkv
  cases update_id_arg_name with
  | some a => exact hsafe kv hkv
  | none =>
    cases identifier with
    | none => exact hsafe kv hkv
    | some i =>
      simp only at hkv
      by_cases hc : (!(obj_fields (filter_input_payload introspect update_input_type_name
          (.obj (product_data.filter (fun kv => !disallowed_on_update.contains kv.1))))).any
            (fun kv => kv.1 = "sku") && i != "")
      · rw [if_pos hc] at hkv
        rcases List.mem_append.mp hkv with h1 | h1
        · exact hsafe kv h1
        · have : kv = ("sku", JValue.str i) := by simpa using h1
          rw [this]
          exact fun heq => hsku (by simpa using heq)
      · rw [if_neg hc] at hkv
        exact hsafe kv hkv

/-- C9 witness: a payload carrying every create-only flag, against an
introspection that even allows `kit`, sends no `kit` key. -/
theorem C9_witness :
    (update_product_sent_data (fun _ => .ok [⟨some "sku", .empty⟩, ⟨some "kit", .empty⟩])
        none "UpdateProductInput" (some "SKU-9")
        [("kit", .bool true), ("kit_build", .bool false), ("no_air", .bool true),
         ("customs_value", .str "0.00"), ("not_owned", .bool true), ("dropship", .bool true),
         ("name", .str "N")]).all (fun kv => kv.1 != "kit") = true :=
  C9_update_strips_create_only_fields _ _ _ _ _ "kit" (by decide)

/-- C5: when the bulk pull succeeds (so the per-record loop completes), the
finalized status is `success` exactly when the error counter is zero and
`partial` otherwise; when the pull raises, the status is `failed` and exactly
one run-scoped error entry with stage `run` is appended. -/
theorem C5_final_status :
    (∀ (env : SyncEnv) (run_id : Nat) (db0 : SyncDB) (ps : List RawRecord),
       env.delta ((get_cursor db0).2.last_write_ts.getD 0) = .ok ps →
       (((run_delta_sync env run_id db0).2.1.status = "success" ↔
          (run_delta_sync env run_id db0).2.1.errors_count = 0) ∧
        ((run_delta_sync env run_id db0).2.1.errors_count ≠ 0 →
          (run_delta_sync env run_id db0).2.1.status = "partial"))) ∧
    (∀ (env : SyncEnv) (run_id : Nat) (db0 : SyncDB) (e : String),
       env.delta ((get_cursor db0).2.last_write_ts.getD 0) = .error e →
       (run_delta_sync env run_id db0).2.1.status = "failed" ∧
       (run_delta_sync env run_id db0).1.sync_errors =
         db0.sync_errors ++ [⟨run_id, none, none, "run", e, none⟩]) := by
  constructor
  · intro env run_id db0 ps h
    unfold run_delta_sync
    simp only [h]
    by_cases hc :
        ((ps.foldl (process_record env run_id)
          ((get_cursor db0).1, ⟨"running", 0, 0, 0, 0, 0⟩, [])).2.1).errors_count = 0
    · simp [hc]
    · simp only [if_neg hc]
      refine ⟨⟨fun hs => absurd hs (by simp [hc]), fun h0 => absurd h0 (by simp [hc])⟩,
        fun _ => by simp [hc]⟩
  · intro env run_id db0 e h
    unfold run_delta_sync
    simp only [h]
    constructor
    · simp
    · simp [get_cursor_errors]

/-- C5 witness: a pull returning one unparseable record finalizes as
`partial` with one error, and a raising pull finalizes as `failed` with the
single run-scoped entry. -/
theorem C5_witness :
    (run_delta_sync ⟨fun _ => .ok [⟨3, none, none, none, none, none, none, none, none, none, 7⟩],
        fun _ => .ok ⟨none, none⟩, fun _ _ => .ok ⟨none, none⟩, 0⟩ 1
        ⟨[], none, []⟩).2.1.status = "partial" ∧
    (run_delta_sync ⟨fun _ => .error "pull failed", fun _ => .ok ⟨none, none⟩,
        fun _ _ => .ok ⟨none, none⟩, 0⟩ 2 ⟨[], none, []⟩).2.1.status = "failed" ∧
    (run_delta_sync ⟨fun _ => .error "pull failed", fun _ => .ok ⟨none, none⟩,
        fun _ _ => .ok ⟨none, none⟩, 0⟩ 2 ⟨[], none, []⟩).1.sync_errors =
      [⟨2, none, none, "run", "pull failed", none⟩] :=
  ⟨(C5_final_status.1 _ 1 _ _ (by rfl)).2 (by decide),
   ((C5_final_status.2 _ 2 _ "pull failed" (by rfl)).1),
   ((C5_final_status.2 _ 2 _ "pull failed" (by rfl)).2)⟩

/-- C2: a per-record exception — a normalization failure, or a push raising
or returning a GraphQL error — increments the error counter, appends exactly
one `SyncError` entry carrying the record's natural key, upstream id, the
stage label `sync` and the raw payload truncated to at most 1000 characters,
leaves the cursor unchanged for that record, and does not abort the loop:
every pulled record is still polled. -/
theorem C2_per_record_error_handling :
    (∀ (env : SyncEnv) (run_id : Nat) (db : SyncDB) (run : SyncRunRow)
       (calls : List ShipCall) (p : RawRecord) (e : String),
       to_db_record p = .error e →
       process_record env run_id (db, run, calls) p =
         ({ db with sync_errors := db.sync_errors ++
             [⟨run_id, p.code, some p.id, "sync", e,
               some (str_take (raw_record_str p) 1000)⟩] },
          { run with total_polled := run.total_polled + 1,
                     errors_count := run.errors_count + 1 }, calls)) ∧
    (∀ (env : SyncEnv) (run_id : Nat) (db : SyncDB) (run : SyncRunRow)
       (calls : List ShipCall) (p : RawRecord) (rec : DbRecord) (e : String),
       to_db_record p = .ok rec →
       ¬ ((upsert_product db rec).2).shiphero_payload_hash =
         some (sha256_json (payload_mapping (to_shiphero_payload (upsert_product db rec).2))) →
       (handle_push env (upsert_product db rec).2
         (to_shiphero_payload (upsert_product db rec).2)).2 = .error e →
       ((process_record env run_id (db, run, calls) p).1.sync_errors =
          db.sync_errors ++ [⟨run_id, p.code, some p.id, "sync", e,
            some (str_take (raw_record_str p) 1000)⟩] ∧
        (process_record env run_id (db, run, calls) p).2.1.errors_count =
          run.errors_count + 1 ∧
        (process_record env run_id (db, run, calls) p).1.cursor = db.cursor)) ∧
    (∀ p : RawRecord, (str_take (raw_record_str p) 1000).length ≤ 1000) ∧
    (∀ (env : SyncEnv) (run_id : Nat) (st : SyncDB × SyncRunRow × List ShipCall)
       (ps : List RawRecord),
       (ps.foldl (process_record env run_id) st).2.1.total_polled =
         st.2.1.total_polled + ps.length) := by
  refine ⟨?_, ?_, fun p => str_take_length_le _ _, ?_⟩
  · intro env run_id db run calls p e h
    rw [process_record_norm_error env run_id db run calls p e h]
    rfl
  · intro env run_id db run calls p rec e h1 h2 h3
    rw [process_record_push_error env run_id db run calls p rec e h1 h2 h3]
    refine ⟨?_, rfl, ?_⟩
    · show ((upsert_product db rec).1).sync_errors ++ _ = _
      rw [upsert_product_errors]
    · show ((upsert_product db rec).1).cursor = db.cursor
      exact upsert_product_cursor db rec
  · intro env run_id st ps
    induction ps generalizing st with
    | nil => simp
    | cons hd tl ih =>
      rw [List.foldl_cons, ih, process_record_total_polled]
      simp [List.length_cons]
      omega

/-- C2 witness: a record with no SKU code is logged with stage `sync`, the
error counter moves to 1, the cursor stays put, and both records of the pull
are still polled. -/
theorem C2_witness :
    process_record ⟨fun _ => .ok [], fun _ => .ok ⟨none, none⟩, fun _ _ => .ok ⟨none, none⟩, 0⟩ 4
      (⟨[], some ⟨some 3, some 9⟩, []⟩, ⟨"running", 0, 0, 0, 0, 0⟩, [])
      ⟨3, none, none, none, none, none, none, none, none, none, 7⟩ =
      (⟨[], some ⟨some 3, some 9⟩,
        [⟨4, none, some 3, "sync", "Missing SKU \x27code\x27 from Fulfil record",
          some (str_take (raw_record_str
            ⟨3, none, none, none, none, none, none, none, none, none, 7⟩) 1000)⟩]⟩,
       ⟨"running", 1, 0, 0, 0, 1⟩, []) ∧
    (str_take (raw_record_str
      ⟨3, none, none, none, none, none, none, none, none, none, 7⟩) 1000).length ≤ 1000 :=
  ⟨C2_per_record_error_handling.1 _ 4 _ _ _ _ _ (by rfl),
   C2_per_record_error_handling.2.2.1 _⟩

/-- C3 counterexample: `_advance_cursor` assigns the record's write timestamp
unconditionally, so a pull delivering records out of write-date order (here
write dates 10 then 5, both processed successfully: two pushes, no errors)
moves the watermark from 10 down to 5 — the claimed unconditional
monotonicity fails on this concrete run. -/
theorem C3_counterexample :
    watermark (process_record
      ⟨fun _ => .ok [⟨1, some "SKU-1", none, none, none, none, none, none, none, none, 10⟩,
                     ⟨2, some "SKU-2", none, none, none, none, none, none, none, none, 5⟩],
       fun _ => .ok ⟨some ⟨none, some ⟨some "SH1"⟩⟩, none⟩,
       fun _ _ => .ok ⟨none, some ⟨none, some ⟨some "SH2"⟩⟩⟩, 0⟩ 1
      (⟨[], some ⟨none, none⟩, []⟩, ⟨"running", 0, 0, 0, 0, 0⟩, [])
      ⟨1, some "SKU-1", none, none, none, none, none, none, none, none, 10⟩).1 = some 10 ∧
    watermark (process_record
      ⟨fun _ => .ok [⟨1, some "SKU-1", none, none, none, none, none, none, none, none, 10⟩,
                     ⟨2, some "SKU-2", none, none, none, none, none, none, none, none, 5⟩],
       fun _ => .ok ⟨some ⟨none, some ⟨some "SH1"⟩⟩, none⟩,
       fun _ _ => .ok ⟨none, some ⟨none, some ⟨some "SH2"⟩⟩⟩, 0⟩ 1
      (process_record
        ⟨fun _ => .ok [⟨1, some "SKU-1", none, none, none, none, none, none, none, none, 10⟩,
                       ⟨2, some "SKU-2", none, none, none, none, none, none, none, none, 5⟩],
         fun _ => .ok ⟨some ⟨none, some ⟨some "SH1"⟩⟩, none⟩,
         fun _ _ => .ok ⟨none, some ⟨none, some ⟨some "SH2"⟩⟩⟩, 0⟩ 1
        (⟨[], some ⟨none, none⟩, []⟩, ⟨"running", 0, 0, 0, 0, 0⟩, [])
        ⟨1, some "SKU-1", none, none, none, none, none, none, none, none, 10⟩)
      ⟨2, some "SKU-2", none, none, none, none, none, none, none, none, 5⟩).1 = some 5 ∧
    (run_delta_sync
      ⟨fun _ => .ok [⟨1, some "SKU-1", none, none, none, none, none, none, none, none, 10⟩,
                     ⟨2, some "SKU-2", none, none, none, none, none, none, none, none, 5⟩],
       fun _ => .ok ⟨some ⟨none, some ⟨some "SH1"⟩⟩, none⟩,
       fun _ _ => .ok ⟨none, some ⟨none, some ⟨some "SH2"⟩⟩⟩, 0⟩ 1
      ⟨[], none, []⟩).2.1.status = "success" ∧
    (run_delta_sync
      ⟨fun _ => .ok [⟨1, some "SKU-1", none, none, none, none, none, none, none, none, 10⟩,
                     ⟨2, some "SKU-2", none, none, none, none, none, none, none, none, 5⟩],
       fun _ => .ok ⟨some ⟨none, some ⟨some "SH1"⟩⟩, none⟩,
       fun _ _ => .ok ⟨none, some ⟨none, some ⟨some "SH2"⟩⟩⟩, 0⟩ 1
      ⟨[], none, []⟩).2.1.pushes_to_shiphero = 2 ∧
    ¬ (10 : Nat) ≤ 5 := by
  refine ⟨by decide, by decide, by decide, by decide, by decide⟩

/-- C3 amended: the watermark is non-decreasing at a per-record step provided
the record's write timestamp is at least the current watermark — as when the
pull delivers records in non-decreasing write-date order at or after the
stored watermark.  (The advance itself assigns the record's timestamp
unconditionally, so an out-of-order pull can decrease it, per the
counterexample.) -/
theorem C3_cursor_advance (env : SyncEnv) (run_id : Nat) (db : SyncDB) (run : SyncRunRow)
    (calls : List ShipCall) (p : RawRecord) (t : Nat)
    (hw : watermark db = some t) (hle : t ≤ p.write_date) :
    ∃ u, watermark (process_record env run_id (db, run, calls) p).1 = some u ∧ t ≤ u := by
  cases hrec : to_db_record p with
  | error e =>
    refine ⟨t, ?_, le_refl t⟩
    rw [process_record_norm_error env run_id db run calls p e hrec]
    rw [watermark_record_error]
    exact hw
  | ok rec =>
    have hwd : ((upsert_product db rec).2).fulfil_write_date = p.write_date := by
      rw [upsert_product_write_date]
      exact to_db_record_write_date p rec hrec
    by_cases h2 : ((upsert_product db rec).2).shiphero_payload_hash =
        some (sha256_json (payload_mapping (to_shiphero_payload (upsert_product db rec).2)))
    · refine ⟨p.write_date, ?_, hle⟩
      rw [process_record_skip env run_id db run calls p rec hrec h2]
      rw [advance_cursor_watermark, hwd]
    · cases h3 : (handle_push env (upsert_product db rec).2
          (to_shiphero_payload (upsert_product db rec).2)).2 with
      | error e =>
        refine ⟨t, ?_, le_refl t⟩
        rw [process_record_push_error env run_id db run calls p rec e hrec h2 h3]
        rw [watermark_record_error]
        show watermark (upsert_product db rec).1 = some t
        unfold watermark
        rw [upsert_product_cursor]
        rw [← hw]
        rfl
      | ok node =>
        refine ⟨p.write_date, ?_, hle⟩
        rw [process_record_push_ok env run_id db run calls p rec node hrec h2 h3]
        rw [advance_cursor_watermark, pushed_row_write_date, hwd]

/-- C3 witness: a stored watermark 3 and a successfully pushed record with
write date 10 move the watermark up, never down. -/
theorem C3_witness :
    (3 : Nat) ≤ 10 ∧
    ∃ u, watermark (process_record
      ⟨fun _ => .ok [], fun _ => .ok ⟨some ⟨none, some ⟨some "SH1"⟩⟩, none⟩,
       fun _ _ => .ok ⟨some ⟨none, some ⟨some "SH1"⟩⟩, none⟩, 0⟩ 1
      (⟨[], some ⟨some 3, some 7⟩, []⟩, ⟨"running", 0, 0, 0, 0, 0⟩, [])
      ⟨1, some "SKU-1", none, none, none, none, none, none, none, none, 10⟩).1 = some u ∧
      3 ≤ u :=
  ⟨by decide,
   C3_cursor_advance _ 1 _ _ _ _ 3 (by rfl) (by decide)⟩

/-- C1: when the freshly computed payload hash equals the fingerprint already
stored on the upserted mirror row, the step increments the skipped counter,
invokes no downstream client operation (the call trace is unchanged) and
leaves the push counter untouched; consequently, two runs that each pull the
same unmodified record perform exactly one downstream write in total — the
first run's single successful push stores the fingerprint, the second run
skips on fingerprint equality and makes no call. -/
theorem C1_idempotent_skip :
    (∀ (env : SyncEnv) (run_id : Nat) (db : SyncDB) (run : SyncRunRow)
       (calls : List ShipCall) (p : RawRecord) (rec : DbRecord),
       to_db_record p = .ok rec →
       ((upsert_product db rec).2).shiphero_payload_hash =
         some (payload_hash_of (upsert_product db rec).2) →
       ((process_record env run_id (db, run, calls) p).2.1.skipped_no_change =
          run.skipped_no_change + 1 ∧
        (process_record env run_id (db, run, calls) p).2.2 = calls ∧
        (process_record env run_id (db, run, calls) p).2.1.pushes_to_shiphero =
          run.pushes_to_shiphero)) ∧
    (∀ (env : SyncEnv) (id1 id2 : Nat) (db0 : SyncDB) (p : RawRecord),
       (∀ s, env.delta s = .ok [p]) →
       (run_delta_sync env id1 db0).2.2.length = 1 →
       (run_delta_sync env id1 db0).2.1.errors_count = 0 →
       ((run_delta_sync env id2 (run_delta_sync env id1 db0).1).2.2 = [] ∧
        (run_delta_sync env id1 db0).2.2.length +
          (run_delta_sync env id2 (run_delta_sync env id1 db0).1).2.2.length = 1)) := by
  constructor
  · intro env run_id db run calls p rec h1 h2
    rw [process_record_skip env run_id db run calls p rec h1 h2]
    exact ⟨rfl, rfl, rfl⟩
  · intro env id1 id2 db0 p hδ hcalls herr
    have hrun1 := run_delta_sync_single env id1 db0 p (hδ _)
    cases hrec : to_db_record p with
    | error e =>
      exfalso
      rw [hrun1,
        process_record_norm_error env id1 (get_cursor db0).1 _ [] p e hrec] at hcalls
      simp at hcalls
    | ok rec =>
      by_cases h2 : ((upsert_product (get_cursor db0).1 rec).2).shiphero_payload_hash =
          some (sha256_json (payload_mapping
            (to_shiphero_payload (upsert_product (get_cursor db0).1 rec).2)))
      · exfalso
        rw [hrun1,
          process_record_skip env id1 (get_cursor db0).1 _ [] p rec hrec h2] at hcalls
        simp at hcalls
      · cases h3 : (handle_push env (upsert_product (get_cursor db0).1 rec).2
            (to_shiphero_payload (upsert_product (get_cursor db0).1 rec).2)).2 with
        | error e =>
          exfalso
          rw [hrun1,
            process_record_push_error env id1 (get_cursor db0).1 _ [] p rec e hrec h2
              h3] at herr
          simp [record_error] at herr
        | ok node =>
          have hA := process_record_push_ok env id1 (get_cursor db0).1
            ⟨"running", 0, 0, 0, 0, 0⟩ [] p rec node hrec h2 h3
          have hfinal : (run_delta_sync env id1 db0).1 =
              advance_cursor
                (store_product (upsert_product (get_cursor db0).1 rec).1
                  (pushed_row env (upsert_product (get_cursor db0).1 rec).2
                    (sha256_json (payload_mapping
                      (to_shiphero_payload (upsert_product (get_cursor db0).1 rec).2)))
                    node))
                (pushed_row env (upsert_product (get_cursor db0).1 rec).2
                  (sha256_json (payload_mapping
                    (to_shiphero_payload (upsert_product (get_cursor db0).1 rec).2)))
                  node).fulfil_write_date
                (pushed_row env (upsert_product (get_cursor db0).1 rec).2
                  (sha256_json (payload_mapping
                    (to_shiphero_payload (upsert_product (get_cursor db0).1 rec).2)))
                  node).fulfil_product_id := by
            rw [hrun1, hA]
          generalize hdbC : advance_cursor
              (store_product (upsert_product (get_cursor db0).1 rec).1
                (pushed_row env (upsert_product (get_cursor db0).1 rec).2
                  (sha256_json (payload_mapping
                    (to_shiphero_payload (upsert_product (get_cursor db0).1 rec).2)))
                  node))
              (pushed_row env (upsert_product (get_cursor db0).1 rec).2
                (sha256_json (payload_mapping
                  (to_shiphero_payload (upsert_product (get_cursor db0).1 rec).2)))
                node).fulfil_write_date
              (pushed_row env (upsert_product (get_cursor db0).1 rec).2
                (sha256_json (payload_mapping
                  (to_shiphero_payload (upsert_product (get_cursor db0).1 rec).2)))
                node).fulfil_product_id = dbC at hfinal
          have hrowid : (pushed_row env (upsert_product (get_cursor db0).1 rec).2
              (sha256_json (payload_mapping
                (to_shiphero_payload (upsert_product (get_cursor db0).1 rec).2)))
              node).fulfil_product_id = rec.fulfil_product_id := by
            rw [pushed_row_id, upsert_product_id]
          have hCprod : dbC.products =
              ((upsert_product (get_cursor db0).1 rec).1).products.map
                (fun r => if r.fulfil_product_id = rec.fulfil_product_id
                  then pushed_row env (upsert_product (get_cursor db0).1 rec).2
                    (sha256_json (payload_mapping
                      (to_shiphero_payload (upsert_product (get_cursor db0).1 rec).2)))
                    node
                  else r) := by
            rw [← hdbC, advance_cursor_products, store_product_products, hrowid]
          have hfind : dbC.products.find?
              (fun r => r.fulfil_product_id = rec.fulfil_product_id) =
              some (pushed_row env (upsert_product (get_cursor db0).1 rec).2
                (sha256_json (payload_mapping
                  (to_shiphero_payload (upsert_product (get_cursor db0).1 rec).2)))
                node) := by
            rw [hCprod]
            exact find?_map_replace _ _ _ hrowid (upsert_product_mem (get_cursor db0).1 rec)
          have hup2 : (upsert_product dbC rec).2 =
              apply_record (pushed_row env (upsert_product (get_cursor db0).1 rec).2
                (sha256_json (payload_mapping
                  (to_shiphero_payload (upsert_product (get_cursor db0).1 rec).2)))
                node) rec :=
            upsert_product_of_find dbC rec _ hfind
          have hskip : ((upsert_product dbC rec).2).shiphero_payload_hash =
              some (sha256_json (payload_mapping
                (to_shiphero_payload (upsert_product dbC rec).2))) := by
            rw [hup2, apply_record_hash, pushed_row_hash, apply_record_payload,
              upsert_product_payload]
          have hcur : dbC.cursor = some ⟨some (pushed_row env
              (upsert_product (get_cursor db0).1 rec).2
              (sha256_json (payload_mapping
                (to_shiphero_payload (upsert_product (get_cursor db0).1 rec).2)))
              node).fulfil_write_date,
              some (pushed_row env (upsert_product (get_cursor db0).1 rec).2
                (sha256_json (payload_mapping
                  (to_shiphero_payload (upsert_product (get_cursor db0).1 rec).2)))
                node).fulfil_product_id⟩ := by
            rw [← hdbC]
            exact advance_cursor_cursor _ _ _
          have hrun2 := run_delta_sync_single env id2 dbC p (hδ _)
          have hgc : (get_cursor dbC).1 = dbC := by rw [get_cursor_of_some dbC _ hcur]
          refine ⟨?_, ?_⟩
          · rw [hfinal, hrun2, hgc,
              process_record_skip env id2 dbC ⟨"running", 0, 0, 0, 0, 0⟩ [] p rec hrec hskip]
          · rw [hfinal, hrun2, hgc,
              process_record_skip env id2 dbC ⟨"running", 0, 0, 0, 0, 0⟩ [] p rec hrec hskip,
              hcalls]
            simp

/-- C1 witness: a mirror row whose stored fingerprint matches the incoming
record's payload hash is skipped without any client call; and a fresh record
pulled by two consecutive runs is written downstream exactly once. -/
theorem C1_witness :
    ((process_record
      ⟨fun _ => .ok [], fun _ => .ok ⟨some ⟨none, some ⟨some "SH1"⟩⟩, none⟩,
       fun _ _ => .ok ⟨some ⟨none, some ⟨some "SH1"⟩⟩, none⟩, 0⟩ 1
      (⟨[⟨1, "SKU-1", none, none, none, none, none, none, none, none, 10, none,
          some (payload_hash_of
            (new_row ⟨1, "SKU-1", none, none, none, none, none, none, none, none, 10⟩)),
          none⟩], none, []⟩, ⟨"running", 0, 0, 0, 0, 0⟩, [])
      ⟨1, some "SKU-1", none, none, none, none, none, none, none, none, 10⟩).2.1.skipped_no_change
        = 1 ∧
     (process_record
      ⟨fun _ => .ok [], fun _ => .ok ⟨some ⟨none, some ⟨some "SH1"⟩⟩, none⟩,
       fun _ _ => .ok ⟨some ⟨none, some ⟨some "SH1"⟩⟩, none⟩, 0⟩ 1
      (⟨[⟨1, "SKU-1", none, none, none, none, none, none, none, none, 10, none,
          some (payload_hash_of
            (new_row ⟨1, "SKU-1", none, none, none, none, none, none, none, none, 10⟩)),
          none⟩], none, []⟩, ⟨"running", 0, 0, 0, 0, 0⟩, [])
      ⟨1, some "SKU-1", none, none, none, none, none, none, none, none, 10⟩).2.2 = [] ∧
     (process_record
      ⟨fun _ => .ok [], fun _ => .ok ⟨some ⟨none, some ⟨some "SH1"⟩⟩, none⟩,
       fun _ _ => .ok ⟨some ⟨none, some ⟨some "SH1"⟩⟩, none⟩, 0⟩ 1
      (⟨[⟨1, "SKU-1", none, none, none, none, none, none, none, none, 10, none,
          some (payload_hash_of
            (new_row ⟨1, "SKU-1", none, none, none, none, none, none, none, none, 10⟩)),
          none⟩], none, []⟩, ⟨"running", 0, 0, 0, 0, 0⟩, [])
      ⟨1, some "SKU-1", none, none, none, none, none, none, none, none, 10⟩).2.1.pushes_to_shiphero
        = 0) ∧
    (run_delta_sync
      ⟨fun _ => .ok [⟨1, some "SKU-1", none, none, none, none, none, none, none, none, 10⟩],
       fun _ => .ok ⟨some ⟨none, some ⟨some "SH1"⟩⟩, none⟩,
       fun _ _ => .ok ⟨some ⟨none, some ⟨some "SH1"⟩⟩, none⟩, 0⟩ 11
      ⟨[], none, []⟩).2.2.length +
      (run_delta_sync
        ⟨fun _ => .ok [⟨1, some "SKU-1", none, none, none, none, none, none, none, none, 10⟩],
         fun _ => .ok ⟨some ⟨none, some ⟨some "SH1"⟩⟩, none⟩,
         fun _ _ => .ok ⟨some ⟨none, some ⟨some "SH1"⟩⟩, none⟩, 0⟩ 12
        (run_delta_sync
          ⟨fun _ => .ok [⟨1, some "SKU-1", none, none, none, none, none, none, none, none, 10⟩],
           fun _ => .ok ⟨some ⟨none, some ⟨some "SH1"⟩⟩, none⟩,
           fun _ _ => .ok ⟨some ⟨none, some ⟨some "SH1"⟩⟩, none⟩, 0⟩ 11
          ⟨[], none, []⟩).1).2.2.length = 1 := by
  constructor
  · exact C1_idempotent_skip.1 _ 1 _ _ _
      ⟨1, some "SKU-1", none, none, none, none, none, none, none, none, 10⟩
      ⟨1, "SKU-1", none, none, none, none, none, none, none, none, 10⟩ (by rfl) (by rfl)
  · exact (C1_idempotent_skip.2 _ 11 12 _ _ (fun _ => rfl) (by decide) (by decide)).2

end Mediator
